import Mathlib

/-!
Shallow embedding of the structural load calculators of the
`bim_normcad_check` repository (snow load, wind load, self-weight load per
SP 20.13330.2016), together with theorems checking the specification's
claims against them.

Numbers are modelled as exact rationals (`ℚ`); Python's float power
operator `**` (used only by the wind height coefficient) is modelled as an
explicit function parameter `fpow`.  Result "notes" (formatted derivation
strings appended by the Python code) are modelled as structured note
values, one constructor per `notes.append` site in the source, carrying
the interpolated dynamic values.
-/

-- ===== generic helpers =====

/-- Association-list lookup, modelling Python `dict.get` on the static
string-keyed lookup tables. -/
def lookupStr {α : Type} : List (String × α) → String → Option α
  | [], _ => none
  | (k, v) :: rest, key => if k = key then some v else lookupStr rest key

-- ===== src/checks/self_weight.py =====

/-- `MATERIAL_DENSITIES` table (kg/m³) from `src/checks/self_weight.py`. -/
def MATERIAL_DENSITIES : List (String × ℚ) :=
  [("wood", 500), ("wood_spruce", 450), ("wood_spruce_beam", 450),
   ("wood_pine", 500), ("wood_oak", 700), ("timber", 500), ("glulam", 500),
   ("lvl", 480),
   ("steel", 7850), ("steel_s235", 7850), ("steel_s345", 7850),
   ("steel_structural", 7850),
   ("concrete", 2500), ("concrete_b25", 2500), ("concrete_b30", 2500),
   ("reinforced_concrete", 2500), ("lightweight_concrete", 1800),
   ("brick", 1800), ("brick_ceramic", 1700), ("brick_silicate", 1800),
   ("aluminum", 2700), ("glass", 2500), ("gypsum", 1200),
   ("insulation", 100)]

/-- `GAMMA_F_PERMANENT_UNFAV = 1.1` from `src/checks/self_weight.py`. -/
def GAMMA_F_PERMANENT_UNFAV : ℚ := 1.1

/-- `GAMMA_F_PERMANENT_FAV = 0.9` from `src/checks/self_weight.py`. -/
def GAMMA_F_PERMANENT_FAV : ℚ := 0.9

/-- Whitespace characters, for Python `str.strip()` / regex `\s` on `str`:
the ASCII whitespace and separator controls plus the Unicode space code
points Python treats as whitespace (NEL, NBSP, Ogham space, the U+2000
range, line/paragraph separators, narrow/mathematical spaces, ideographic
space). -/
def isPyWs (c : Char) : Bool :=
  let n := c.toNat
  (9 ≤ n && n ≤ 13) || n = 32 || (28 ≤ n && n ≤ 31) || n = 0x85 || n = 0xA0 ||
  n = 0x1680 || (0x2000 ≤ n && n ≤ 0x200A) || n = 0x2028 || n = 0x2029 ||
  n = 0x202F || n = 0x205F || n = 0x3000

/-- Drop leading whitespace from a character list. -/
def dropWs : List Char → List Char
  | [] => []
  | c :: cs => if isPyWs c then dropWs cs else c :: cs

/-- Python `str.strip()` on a character list: drop leading and trailing
whitespace. -/
def stripChars (cs : List Char) : List Char :=
  dropWs ((dropWs cs.reverse).reverse)

/-- Separator characters matched by the regex class `[\s\-_]` in
`normalize_material_name`. -/
def isSepChar (c : Char) : Bool :=
  isPyWs c || c = '-' || c = '_'

/-- Collapse consecutive underscores to a single one; together with a
separator-to-underscore map this models `re.sub(r'[\s\-_]+', '_', s)`. -/
def squeezeUnd : List Char → List Char
  | [] => []
  | [c] => [c]
  | c1 :: c2 :: rest =>
    if c1 = '_' && c2 = '_' then squeezeUnd (c2 :: rest)
    else c1 :: squeezeUnd (c2 :: rest)

/-- Python `str.lower()` on the alphabets occurring in the repository's
material names and keyword tables: ASCII `A`-`Z` and Cyrillic `А`-`Я`
(U+0410-U+042F) map down by 32 code points, `Ё` (U+0401) maps to `ё`
(U+0451); everything else is unchanged. -/
def pyLower (c : Char) : Char :=
  let n := c.toNat
  if 65 ≤ n && n ≤ 90 then Char.ofNat (n + 32)
  else if 0x410 ≤ n && n ≤ 0x42F then Char.ofNat (n + 32)
  else if n = 0x401 then Char.ofNat 0x451
  else c

/-- `normalize_material_name` from `src/checks/self_weight.py`: lowercase
(`pyLower`, covering the Latin and Cyrillic letters the source's tables
use), strip, and collapse runs of whitespace/hyphen/underscore to a single
underscore. -/
def normalize_material_name (name : String) : String :=
  if name = "" then "" else
  ⟨squeezeUnd ((stripChars (name.data.map pyLower)).map
    (fun c => if isSepChar c then '_' else c))⟩

/-- Is `pat` a prefix of `s` (character lists)? -/
def segStarts : List Char → List Char → Bool
  | [], _ => true
  | _ :: _, [] => false
  | a :: as, b :: bs => a = b && segStarts as bs

/-- Is `pat` a contiguous segment of `s`?  Models Python `kw in normalized`. -/
def hasSeg (pat : List Char) : List Char → Bool
  | [] => segStarts pat []
  | c :: rest => segStarts pat (c :: rest) || hasSeg pat rest

/-- `keywords_density` keyword groups from `get_material_density`,
in source order (first matching group wins). -/
def keywords_density : List (List String × ℚ) :=
  [(["steel", "сталь"], 7850),
   (["wood", "timber", "древ", "брус", "дерев", "spruce", "pine", "ель", "сосна"], 500),
   (["concrete", "бетон"], 2500),
   (["brick", "кирпич"], 1800),
   (["aluminum", "алюмин"], 2700),
   (["glass", "стекло"], 2500),
   (["gypsum", "гипс"], 1200)]

/-- The keyword-group loop of `get_material_density`: return the density of
the first group containing a keyword that occurs in `normalized`. -/
def kwDensity (normalized : String) : List (List String × ℚ) → Option ℚ
  | [] => none
  | (kws, d) :: rest =>
    if kws.any (fun kw => hasSeg kw.data normalized.data) then some d
    else kwDensity normalized rest

/-- The name-based part of `get_material_density` (after the custom-density
check): exact table match, then keyword groups, then concrete default. -/
def densityByName (material_name : String) : ℚ × String :=
  if material_name = "" then (2500, "default")
  else
    let normalized := normalize_material_name material_name
    match lookupStr MATERIAL_DENSITIES normalized with
    | some d => (d, "lookup")
    | none =>
      match kwDensity normalized keywords_density with
      | some d => (d, "lookup")
      | none => (2500, "default")

/-- `get_material_density` from `src/checks/self_weight.py`: custom density
if positive, else lookup by normalized name, else concrete default. -/
def get_material_density (material_name : String) (custom_density : Option ℚ) :
    ℚ × String :=
  match custom_density with
  | some d => if 0 < d then (d, "custom") else densityByName material_name
  | none => densityByName material_name

/-- One structured note per `notes.append` site of `calculate_self_weight`. -/
inductive SWNote where
  | densityDefault (material : String) (density : ℚ)
  | densityLookup (material : String) (density : ℚ)
  | densityCustom (material : String) (density : ℚ)
  | volumeComputed (length area volume : ℚ)
  | volumeFromIfc (volume : ℚ)
  | volumeUndefined
  | massNote (density volume mass : ℚ)
  | weightNormNote (mass g w : ℚ)
  | weightCalcNote (w0 gf w : ℚ)
  | linearLoadNote (w length q : ℚ)
deriving DecidableEq

/-- `SelfWeightParams` dataclass from `src/checks/self_weight.py`. -/
structure SelfWeightParams where
  element_id : String := ""
  element_name : String := ""
  ifc_class : String := ""
  volume_m3 : ℚ := 0
  length_m : ℚ := 0
  cross_section_area_m2 : ℚ := 0
  material_name : String := ""
  density_kg_m3 : Option ℚ := none
  gamma_f : ℚ := GAMMA_F_PERMANENT_UNFAV
deriving DecidableEq

/-- `SelfWeightResult` dataclass from `src/checks/self_weight.py`. -/
structure SelfWeightResult where
  element_id : String
  element_name : String
  ifc_class : String
  volume_m3 : ℚ
  length_m : ℚ
  cross_section_area_m2 : ℚ
  material_name : String
  density_kg_m3 : ℚ
  density_source : String
  mass_kg : ℚ
  weight_norm_kN : ℚ
  weight_calc_kN : ℚ
  gamma_f : ℚ
  linear_load_kN_m : Option ℚ := none
  notes : List SWNote := []
deriving DecidableEq

/-- The constant `g = 9.81 / 1000` (kN per kg) of `calculate_self_weight`. -/
def g_kN_per_kg : ℚ := 9.81 / 1000

/-- `calculate_self_weight` from `src/checks/self_weight.py`.  The only
division (`weight_calc / params.length_m`) is performed under the
`length_m > 0` guard, exactly as in the source. -/
def calculate_self_weight (params : SelfWeightParams) : SelfWeightResult :=
  let dres := get_material_density params.material_name params.density_kg_m3
  let density := dres.1
  let density_source := dres.2
  let densityNote :=
    if density_source = "default" then SWNote.densityDefault params.material_name density
    else if density_source = "lookup" then SWNote.densityLookup params.material_name density
    else SWNote.densityCustom params.material_name density
  let vres : ℚ × List SWNote :=
    if params.volume_m3 ≤ 0 ∧ 0 < params.length_m ∧ 0 < params.cross_section_area_m2 then
      (params.length_m * params.cross_section_area_m2,
       [SWNote.volumeComputed params.length_m params.cross_section_area_m2
         (params.length_m * params.cross_section_area_m2)])
    else if 0 < params.volume_m3 then
      (params.volume_m3, [SWNote.volumeFromIfc params.volume_m3])
    else
      (params.volume_m3, [SWNote.volumeUndefined])
  let volume := vres.1
  let mass := density * volume
  let weight_norm := mass * g_kN_per_kg
  let gamma_f := params.gamma_f
  let weight_calc := weight_norm * gamma_f
  let linres : Option ℚ × List SWNote :=
    if 0 < params.length_m then
      (some (weight_calc / params.length_m),
       [SWNote.linearLoadNote weight_calc params.length_m (weight_calc / params.length_m)])
    else (none, [])
  { element_id := params.element_id
    element_name := params.element_name
    ifc_class := params.ifc_class
    volume_m3 := volume
    length_m := params.length_m
    cross_section_area_m2 := params.cross_section_area_m2
    material_name := params.material_name
    density_kg_m3 := density
    density_source := density_source
    mass_kg := mass
    weight_norm_kN := weight_norm
    weight_calc_kN := weight_calc
    gamma_f := gamma_f
    linear_load_kN_m := linres.1
    notes := densityNote :: vres.2 ++
      [SWNote.massNote density volume mass,
       SWNote.weightNormNote mass g_kN_per_kg weight_norm,
       SWNote.weightCalcNote weight_norm gamma_f weight_calc] ++ linres.2 }

-- ===== src/checks/wind_load.py =====

/-- `WIND_REGIONS_W0` table (kPa) from `src/checks/wind_load.py`. -/
def WIND_REGIONS_W0 : List (String × ℚ) :=
  [("Ia", 0.17), ("I", 0.23), ("II", 0.30), ("III", 0.38),
   ("IV", 0.48), ("V", 0.60), ("VI", 0.73), ("VII", 0.85)]

/-- One entry of the `TERRAIN_PARAMS` table. -/
structure TerrainEntry where
  alpha : ℚ
  k10 : ℚ
  zeta10 : ℚ
  z0 : ℚ
deriving DecidableEq

/-- `TERRAIN_PARAMS` table from `src/checks/wind_load.py`. -/
def TERRAIN_PARAMS : List (String × TerrainEntry) :=
  [("A", { alpha := 0.15, k10 := 1.0, zeta10 := 0.76, z0 := 5.0 }),
   ("B", { alpha := 0.20, k10 := 0.65, zeta10 := 1.06, z0 := 10.0 }),
   ("C", { alpha := 0.25, k10 := 0.40, zeta10 := 1.78, z0 := 20.0 })]

/-- `GAMMA_F_WIND = 1.4` from `src/checks/wind_load.py`. -/
def GAMMA_F_WIND : ℚ := 1.4

/-- `AERO_COEFFICIENTS` table from `src/checks/wind_load.py`. -/
def AERO_COEFFICIENTS : List (String × ℚ) :=
  [("windward", 0.8), ("leeward", -0.5), ("side", -0.6),
   ("roof_flat", -0.7), ("roof_windward", -0.6), ("roof_leeward", -0.4)]

/-- `WindLoadParams` dataclass from `src/checks/wind_load.py`. -/
structure WindLoadParams where
  element_id : String := ""
  element_name : String := ""
  element_height_m : ℚ := 0
  element_width_m : ℚ := 0
  element_area_m2 : ℚ := 0
  wind_region : String := "III"
  terrain_type : String := "B"
  building_height_m : ℚ := 10
  building_width_m : ℚ := 20
  building_length_m : ℚ := 30
  surface_type : String := "windward"
  custom_aero_coef : Option ℚ := none
  include_pulsation : Bool := true
  correlation_coef_nu : ℚ := 0.8
deriving DecidableEq

/-- One structured note per `notes.append` site of `calculate_wind_load`. -/
inductive WindNote where
  | unknownRegion (region : String) (w0 : ℚ)
  | regionNote (region : String) (w0 : ℚ)
  | unknownTerrain (terrain : String)
  | terrainNote (terrain : String)
  | zeNote (ze : ℚ)
  | kNote (k : ℚ)
  | zetaNote (zeta : ℚ)
  | aeroNote (c : ℚ) (surface : String)
  | wmNote (w0 k c wm : ℚ)
  | nuNote (nu : ℚ)
  | wpNote (wmAbs zeta nu wp : ℚ)
  | noPulsationNote
  | wNormNote (w : ℚ)
  | wCalcNote (wn gf wc : ℚ)
  | totalNote (wcAbs area total : ℚ)
  | directionsNote
deriving DecidableEq

/-- `WindLoadResult` dataclass from `src/checks/wind_load.py`. -/
structure WindLoadResult where
  element_id : String
  element_name : String
  w0 : ℚ
  k_ze : ℚ
  c : ℚ
  wm : ℚ
  zeta : ℚ
  nu : ℚ
  wp : ℚ
  w_norm : ℚ
  w_calc : ℚ
  gamma_f : ℚ
  area_m2 : ℚ
  total_load_kN : ℚ
  wind_directions : List String := []
  notes : List WindNote := []
deriving DecidableEq

/-- `calculate_k_ze` from `src/checks/wind_load.py`.  `fpow` models the
Python float power operator `**`; the equivalent height is clamped to `z0`
before exponentiation, as in the source (`ze_calc = max(ze, z0)`). -/
def calculate_k_ze (fpow : ℚ → ℚ → ℚ) (ze : ℚ) (terrain_type : String) : ℚ × ℚ :=
  let params := (lookupStr TERRAIN_PARAMS terrain_type).getD
    { alpha := 0.20, k10 := 0.65, zeta10 := 1.06, z0 := 10.0 }
  let ze_calc := max ze params.z0
  let k := params.k10 * fpow (ze_calc / 10) (2 * params.alpha)
  let zeta := params.zeta10 * fpow (ze_calc / 10) (-params.alpha)
  (k, zeta)

/-- Division as performed by Python's float `/`: raises `ZeroDivisionError`
on a zero divisor, modelled as an `Except.error`. -/
def pyDiv (a b : ℚ) : Except String ℚ :=
  if b = 0 then Except.error "ZeroDivisionError" else Except.ok (a / b)

/-- `calculate_correlation_coefficient` from `src/checks/wind_load.py`:
`nu = 1/(1 + 0.8 (rho + chi))` clamped to `[0.4, 1.0]`.  The division is
unguarded in the source, hence the `Except`. -/
def calculate_correlation_coefficient (rho chi : ℚ) : Except String ℚ :=
  match pyDiv 1 (1 + 0.8 * (rho + chi)) with
  | Except.error e => Except.error e
  | Except.ok nu => Except.ok (max 0.4 (min 1.0 nu))

/-- `get_aero_coefficient` from `src/checks/wind_load.py`: any caller
override wins; unknown surface types silently default to 0.8. -/
def get_aero_coefficient (surface_type : String) (custom : Option ℚ) : ℚ :=
  match custom with
  | some c => c
  | none => (lookupStr AERO_COEFFICIENTS surface_type).getD 0.8

/-- The base wind pressure of `calculate_wind_load`:
`WIND_REGIONS_W0.get(wind_region, 0.38)` (region III fallback). -/
def wind_w0 (params : WindLoadParams) : ℚ :=
  (lookupStr WIND_REGIONS_W0 params.wind_region).getD 0.38

/-- The region note of `calculate_wind_load`: a fallback warning for an
unknown region, else a plain region note. -/
def wind_regionNote (params : WindLoadParams) : WindNote :=
  if (lookupStr WIND_REGIONS_W0 params.wind_region).isSome
  then WindNote.regionNote params.wind_region (wind_w0 params)
  else WindNote.unknownRegion params.wind_region (wind_w0 params)

/-- The terrain resolution of `calculate_wind_load`: unknown terrain types
fall back to type B. -/
def wind_terrain (params : WindLoadParams) : String :=
  if (lookupStr TERRAIN_PARAMS params.terrain_type).isSome
  then params.terrain_type else "B"

/-- The terrain note of `calculate_wind_load`: a fallback warning for an
unknown terrain type, else a plain terrain note. -/
def wind_terrainNote (params : WindLoadParams) : WindNote :=
  if (lookupStr TERRAIN_PARAMS params.terrain_type).isSome
  then WindNote.terrainNote (wind_terrain params)
  else WindNote.unknownTerrain params.terrain_type

/-- The equivalent height of `calculate_wind_load`: the element height when
positive, else the building height. -/
def wind_ze (params : WindLoadParams) : ℚ :=
  if 0 < params.element_height_m then params.element_height_m
  else params.building_height_m

/-- The `(k(ze), zeta(ze))` pair of `calculate_wind_load`. -/
def wind_kzeta (fpow : ℚ → ℚ → ℚ) (params : WindLoadParams) : ℚ × ℚ :=
  calculate_k_ze fpow (wind_ze params) (wind_terrain params)

/-- The aerodynamic coefficient of `calculate_wind_load`. -/
def wind_c (params : WindLoadParams) : ℚ :=
  get_aero_coefficient params.surface_type params.custom_aero_coef

/-- The mean wind component `wm = w0 * k(ze) * c` of `calculate_wind_load`. -/
def wind_wm (fpow : ℚ → ℚ → ℚ) (params : WindLoadParams) : ℚ :=
  wind_w0 params * (wind_kzeta fpow params).1 * wind_c params

/-- The straight-line tail of `calculate_wind_load` after the pulsation
branch fixed `nu`, `wp` and the pulsation notes: sign-dependent combination
`w_norm`, factored `w_calc`, resolved area and total load, and the ordered
note list. -/
def windFinish (fpow : ℚ → ℚ → ℚ) (params : WindLoadParams)
    (nu wp : ℚ) (pulsNotes : List WindNote) : WindLoadResult :=
  let wm := wind_wm fpow params
  let w_norm := if 0 ≤ wm then wm + wp else wm - wp
  let w_calc := w_norm * GAMMA_F_WIND
  let area := if 0 < params.element_area_m2 then params.element_area_m2 else 0
  let total_load := |w_calc| * area
  { element_id := params.element_id
    element_name := params.element_name
    w0 := wind_w0 params
    k_ze := (wind_kzeta fpow params).1
    c := wind_c params
    wm := wm
    zeta := (wind_kzeta fpow params).2
    nu := nu, wp := wp
    w_norm := w_norm, w_calc := w_calc, gamma_f := GAMMA_F_WIND
    area_m2 := area, total_load_kN := total_load
    wind_directions := ["0°", "90°", "180°", "270°"]
    notes := [wind_regionNote params, wind_terrainNote params,
              WindNote.zeNote (wind_ze params),
              WindNote.kNote ((wind_kzeta fpow params).1),
              WindNote.zetaNote ((wind_kzeta fpow params).2),
              WindNote.aeroNote (wind_c params) params.surface_type,
              WindNote.wmNote (wind_w0 params) ((wind_kzeta fpow params).1)
                (wind_c params) wm] ++ pulsNotes ++
             [WindNote.wNormNote w_norm, WindNote.wCalcNote w_norm GAMMA_F_WIND w_calc] ++
             (if 0 < area then [WindNote.totalNote (|w_calc|) area total_load] else []) ++
             [WindNote.directionsNote] }

/-- `calculate_wind_load` from `src/checks/wind_load.py`.  When pulsation is
included and both building width and height are positive, the spatial
correlation coefficient is recomputed (the source's unguarded division,
hence the `Except`); otherwise the caller-supplied `correlation_coef_nu` is
used.  Without pulsation, `wp = 0`. -/
def calculate_wind_load (fpow : ℚ → ℚ → ℚ) (params : WindLoadParams) :
    Except String WindLoadResult :=
  if params.include_pulsation then
    match (if 0 < params.building_width_m ∧ 0 < params.building_height_m then
             calculate_correlation_coefficient
               (params.building_width_m / (10 * params.building_height_m))
               (params.building_length_m / (10 * params.building_height_m))
           else Except.ok params.correlation_coef_nu) with
    | Except.error e => Except.error e
    | Except.ok nu =>
      Except.ok (windFinish fpow params nu
        (|wind_wm fpow params| * (wind_kzeta fpow params).2 * nu)
        [WindNote.nuNote nu,
         WindNote.wpNote (|wind_wm fpow params|) ((wind_kzeta fpow params).2) nu
           (|wind_wm fpow params| * (wind_kzeta fpow params).2 * nu)])
  else
    Except.ok (windFinish fpow params params.correlation_coef_nu 0
      [WindNote.noPulsationNote])

-- ===== IFC element records and parameter extraction =====

/-- The quantity-set fields read by the extraction code from one
`Qto_*BaseQuantities` property set. -/
structure QtoSet where
  netVolume : Option ℚ := none
  length : Option ℚ := none
  height : Option ℚ := none
  crossSectionArea : Option ℚ := none
  grossSideArea : Option ℚ := none
deriving DecidableEq

/-- The `section_approx` fields read by the extraction code.  `b` and `h`
model `section.get("b", 0)` / `section.get("h", 0)`. -/
structure SectionApprox where
  length : Option ℚ := none
  b : ℚ := 0
  h : ℚ := 0
deriving DecidableEq

/-- The element-record fields read by the extraction code (one JSONL line
of extracted IFC data).  A missing or empty property set is `none`; `xyz`
models `placement.get("xyz", [0, 0, 0])`. -/
structure ElementRecord where
  global_id : String := ""
  name : String := ""
  ifc_class : String := ""
  materials : List String := []
  qto_beam : Option QtoSet := none
  qto_column : Option QtoSet := none
  qto_slab : Option QtoSet := none
  qto_wall : Option QtoSet := none
  section_approx : Option SectionApprox := none
  xyz : List ℚ := [0, 0, 0]
deriving DecidableEq

/-- `extract_self_weight_params_from_ifc_element` from
`src/checks/self_weight.py`.  The millimetre heuristic for lengths is
`v / 1000 if v > 100 else v`; for section `b`/`h` the source threshold is
`> 1`, not `> 100`. -/
def extract_self_weight_params_from_ifc_element (element : ElementRecord) :
    SelfWeightParams :=
  let p0 : SelfWeightParams :=
    { element_id := element.global_id
      element_name := element.name
      ifc_class := element.ifc_class
      material_name := match element.materials with | [] => "" | m :: _ => m }
  let p1 := match element.qto_beam with
    | none => p0
    | some q =>
      let a := match q.netVolume with
        | some v => { p0 with volume_m3 := v }
        | none => p0
      let b := match q.length with
        | some lv => { a with length_m := if lv > 100 then lv / 1000 else lv }
        | none => a
      match q.crossSectionArea with
      | some ar => { b with cross_section_area_m2 := ar }
      | none => b
  let p2 := match element.qto_column with
    | none => p1
    | some q =>
      let a := match q.netVolume with
        | some v => { p1 with volume_m3 := v }
        | none => p1
      let b :=
        if q.length.isSome || q.height.isSome then
          let lv := q.length.getD (q.height.getD 0)
          { a with length_m := if lv > 100 then lv / 1000 else lv }
        else a
      match q.crossSectionArea with
      | some ar => { b with cross_section_area_m2 := ar }
      | none => b
  let p3 := match element.qto_slab with
    | none => p2
    | some q =>
      match q.netVolume with
      | some v => { p2 with volume_m3 := v }
      | none => p2
  let p4 := match element.qto_wall with
    | none => p3
    | some q =>
      match q.netVolume with
      | some v => { p3 with volume_m3 := v }
      | none => p3
  match element.section_approx with
  | none => p4
  | some s =>
    let a :=
      if p4.length_m = 0 then
        match s.length with
        | some lv => { p4 with length_m := if lv > 100 then lv / 1000 else lv }
        | none => p4
      else p4
    if a.cross_section_area_m2 = 0 then
      if 0 < s.b ∧ 0 < s.h then
        { a with cross_section_area_m2 :=
            (if s.b > 1 then s.b / 1000 else s.b) * (if s.h > 1 then s.h / 1000 else s.h) }
      else a
    else a

/-- `extract_wind_params_from_ifc_element` from `src/checks/wind_load.py`.
The element height is `xyz[2] / 1000` unconditionally (the source comment
says "assume mm -> m"); `element_width_m` is `section.get("b", 0) / 1000`. -/
def extract_wind_params_from_ifc_element (element : ElementRecord) :
    WindLoadParams :=
  let p0 : WindLoadParams :=
    { element_id := element.global_id, element_name := element.name }
  let p1 := if 3 ≤ element.xyz.length then
      { p0 with element_height_m := element.xyz.getD 2 0 / 1000 }
    else p0
  let p2 := match element.section_approx with
    | some s => { p1 with element_width_m := s.b / 1000 }
    | none => p1
  match element.qto_wall with
  | some q =>
    match q.grossSideArea with
    | some ar => { p2 with element_area_m2 := ar }
    | none => p2
  | none => p2

-- ===== src/checks/snow_load.py =====

/-- `SNOW_REGIONS_SG` table (kPa, SP 20 table 10.1) from
`src/checks/snow_load.py`. -/
def SNOW_REGIONS_SG : List (String × ℚ) :=
  [("I", 0.5), ("II", 1.0), ("III", 1.5), ("IV", 2.0),
   ("V", 2.5), ("VI", 3.0), ("VII", 3.5), ("VIII", 4.0)]

/-- The ground-snow-load resolution `SNOW_REGIONS_SG.get(snow_region, 1.5)`
used by `calculate_single` and `set_input_data` in `src/checks/snow_load.py`:
unknown regions fall back to region III's 1.5 kPa. -/
def snowSgFor (snow_region : String) : ℚ :=
  (lookupStr SNOW_REGIONS_SG snow_region).getD 1.5

-- ===== snow load calculator (modelled from the spec) =====
-- src/checks/snow_load.py delegates the actual snow computation to the
-- external NormCAD COM server; the repository's own formula-level snow
-- calculator described by the spec (§4.3) is not among the files under
-- src/, so it is modelled here from the spec's words.

/-- Modelled from the spec: input parameters of the snow load calculator of
§4.3 (`compute_snow_load`), whose implementation is not under `src/`. -/
structure SnowLoadParams where
  snow_region : String := "III"
  roof_type : String := "flat"
  roof_angle_deg : ℚ := 0
  Ce : ℚ := 1
  Ct : ℚ := 1
  area_m2 : ℚ := 0
  adjacent_roof : Bool := false
  height_difference_m : ℚ := 0
  parapet_height_m : ℚ := 0
deriving DecidableEq

/-- Modelled from the spec: structured notes of the snow load calculator,
one constructor per note the spec (§4.3) requires. -/
inductive SnowNote where
  | unknownRegion (region : String) (sg : ℚ)
  | regionNote (region : String) (sg : ℚ)
  | muNote (mu : ℚ)
  | gableAsymWarning
  | archWarning
  | unknownRoofTypeWarning (roofType : String)
  | driftWarning (multiplier : ℚ)
  | parapetAdvisory (height : ℚ)
  | ceCtNote (ce ct : ℚ)
  | s0Note (sg mu ce ct s0 : ℚ)
  | sNote (s0 gf s : ℚ)
  | totalNote (s area total : ℚ)
deriving DecidableEq

/-- Modelled from the spec: result record of the snow load calculator. -/
structure SnowLoadResult where
  Sg : ℚ
  mu : ℚ
  Ce : ℚ
  Ct : ℚ
  S0 : ℚ
  S : ℚ
  gamma_f : ℚ
  area_m2 : ℚ
  total_load_kN : ℚ
  notes : List SnowNote := []
deriving DecidableEq

/-- Modelled from the spec (§4.3): shape coefficient `mu` by roof type and
angle, together with the warning notes the spec attaches to the roof-type
branches.  "flat": 1 up to 25°, ramp `(60-angle)/35` to 60°, then 0;
"single_slope"/"gable": 1 up to 30°, ramp `(60-angle)/30` to 60°, then 0
(gable adds an asymmetric-case warning); "arch": fixed 1 with a warning;
unknown type: 1 with a warning. -/
def snow_mu (roof_type : String) (angle : ℚ) : ℚ × List SnowNote :=
  if roof_type = "flat" then
    (if angle ≤ 25 then 1
     else if angle ≤ 60 then (60 - angle) / 35
     else 0, [])
  else if roof_type = "single_slope" then
    (if angle ≤ 30 then 1
     else if angle ≤ 60 then (60 - angle) / 30
     else 0, [])
  else if roof_type = "gable" then
    (if angle ≤ 30 then 1
     else if angle ≤ 60 then (60 - angle) / 30
     else 0, [SnowNote.gableAsymWarning])
  else if roof_type = "arch" then
    (1, [SnowNote.archWarning])
  else
    (1, [SnowNote.unknownRoofTypeWarning roof_type])

/-- Modelled from the spec (§4.3): `compute_snow_load`.  `Sg` comes from the
8-entry region table with fallback to region III (1.5 kPa) and a warning
note; `S0 = Sg * mu * Ce * Ct`; `S = S0 * 1.4`;
`total_load_kN = S * area_m2`.  The drift multiplier
`min(2 * height_difference + 1, 4.0)` and the parapet condition only emit
warning notes and do not feed into `S0`/`S`. -/
def compute_snow_load (params : SnowLoadParams) : SnowLoadResult :=
  let sglk := lookupStr SNOW_REGIONS_SG params.snow_region
  let Sg := sglk.getD 1.5
  let regionNote :=
    if sglk.isSome then SnowNote.regionNote params.snow_region Sg
    else SnowNote.unknownRegion params.snow_region Sg
  let mures := snow_mu params.roof_type params.roof_angle_deg
  let mu := mures.1
  let driftNotes :=
    if params.adjacent_roof ∧ 0 < params.height_difference_m then
      [SnowNote.driftWarning (min (2 * params.height_difference_m + 1) 4)]
    else []
  let parapetNotes :=
    if 0.6 < params.parapet_height_m then
      [SnowNote.parapetAdvisory params.parapet_height_m]
    else []
  let ceCtNotes :=
    if params.Ce ≠ 1 ∨ params.Ct ≠ 1 then [SnowNote.ceCtNote params.Ce params.Ct]
    else []
  let S0 := Sg * mu * params.Ce * params.Ct
  let gamma_f : ℚ := 1.4
  let S := S0 * gamma_f
  let total := S * params.area_m2
  let totalNotes :=
    if 0 < params.area_m2 then [SnowNote.totalNote S params.area_m2 total] else []
  { Sg := Sg, mu := mu, Ce := params.Ce, Ct := params.Ct
    S0 := S0, S := S, gamma_f := gamma_f
    area_m2 := params.area_m2, total_load_kN := total
    notes := regionNote :: SnowNote.muNote mu :: mures.2 ++ driftNotes ++
      parapetNotes ++ ceCtNotes ++
      [SnowNote.s0Note Sg mu params.Ce params.Ct S0, SnowNote.sNote S0 gamma_f S] ++
      totalNotes }

-- ===== theorems =====

/-- The concrete snow-load test input of the spec's §8: flat roof, angle 0°,
region III, `Ce = Ct = 1`, area 100 m². -/
def snowFlatExample : SnowLoadParams :=
  { snow_region := "III", roof_type := "flat", roof_angle_deg := 0,
    Ce := 1, Ct := 1, area_m2 := 100 }

/-- Unfolding lemma: `S0` is `Sg * mu * Ce * Ct` by construction. -/
lemma snow_S0_eq (p : SnowLoadParams) :
    (compute_snow_load p).S0 =
      (compute_snow_load p).Sg * (compute_snow_load p).mu * p.Ce * p.Ct := rfl

/-- Unfolding lemma: `S` is `S0 * 1.4` by construction. -/
lemma snow_S_eq (p : SnowLoadParams) :
    (compute_snow_load p).S = (compute_snow_load p).S0 * 1.4 := rfl

/-- Unfolding lemma: `total_load_kN` is `S * area_m2` by construction. -/
lemma snow_total_eq (p : SnowLoadParams) :
    (compute_snow_load p).total_load_kN = (compute_snow_load p).S * p.area_m2 := rfl

/-- Claim C1: for every snow-load input the snow load calculator computes
`S0 = Sg * mu * Ce * Ct`, `S = S0 * 1.4` and `total_load_kN = S * area_m2`;
for a flat roof at 0° in region III with `Ce = Ct = 1` and 100 m² it yields
`mu = 1`, `S0 = 1.5`, `S = 2.1`, `total_load_kN = 210`. -/
theorem claim_c1_snow_formulas :
    (∀ p : SnowLoadParams,
      (compute_snow_load p).S0 =
        (compute_snow_load p).Sg * (compute_snow_load p).mu * p.Ce * p.Ct ∧
      (compute_snow_load p).S = (compute_snow_load p).S0 * 1.4 ∧
      (compute_snow_load p).total_load_kN = (compute_snow_load p).S * p.area_m2) ∧
    ((compute_snow_load snowFlatExample).Sg = 1.5 ∧
     (compute_snow_load snowFlatExample).mu = 1 ∧
     (compute_snow_load snowFlatExample).S0 = 1.5 ∧
     (compute_snow_load snowFlatExample).S = 2.1 ∧
     (compute_snow_load snowFlatExample).total_load_kN = 210) := by
  constructor
  · intro p
    exact ⟨snow_S0_eq p, snow_S_eq p, snow_total_eq p⟩
  · have hSg : (compute_snow_load snowFlatExample).Sg = 1.5 := rfl
    have hmu : (compute_snow_load snowFlatExample).mu = 1 := rfl
    have hS0 : (compute_snow_load snowFlatExample).S0 = 1.5 := by
      rw [snow_S0_eq, hSg, hmu]
      norm_num [snowFlatExample]
    have hS : (compute_snow_load snowFlatExample).S = 2.1 := by
      rw [snow_S_eq, hS0]
      norm_num
    have hT : (compute_snow_load snowFlatExample).total_load_kN = 210 := by
      rw [snow_total_eq, hS]
      norm_num [snowFlatExample]
    exact ⟨hSg, hmu, hS0, hS, hT⟩

/-- Claim C3: the flat-roof snow shape coefficient is 1 for angles up to
25°, `(60 - angle)/35` between 25° and 60° (so 30° gives about 0.857), and
0 above 60°. -/
theorem claim_c3_snow_mu_flat :
    (∀ a : ℚ, a ≤ 25 → (snow_mu "flat" a).1 = 1) ∧
    (∀ a : ℚ, 25 < a → a ≤ 60 → (snow_mu "flat" a).1 = (60 - a) / 35) ∧
    (∀ a : ℚ, 60 < a → (snow_mu "flat" a).1 = 0) ∧
    (snow_mu "flat" 30).1 = 6 / 7 ∧
    |(snow_mu "flat" 30).1 - 0.857| < 0.001 ∧
    (snow_mu "flat" 70).1 = 0 := by
  refine ⟨?_, ?_, ?_, ?_, ?_, ?_⟩
  · intro a h
    simp [snow_mu, h]
  · intro a h1 h2
    simp [snow_mu, h2, not_le.mpr h1]
  · intro a h
    have h25 : (25 : ℚ) < a := lt_trans (by norm_num) h
    simp [snow_mu, not_le.mpr h25, not_le.mpr h]
  · norm_num [snow_mu]
  · norm_num [snow_mu, abs_lt]
  · norm_num [snow_mu]

/-- Witness for C3 at concrete angles 20°, 30° and 70°. -/
theorem claim_c3_witness :
    (snow_mu "flat" 20).1 = 1 ∧
    (snow_mu "flat" 30).1 = (60 - 30) / 35 ∧
    (snow_mu "flat" 70).1 = 0 :=
  ⟨claim_c3_snow_mu_flat.1 20 (by norm_num),
   claim_c3_snow_mu_flat.2.1 30 (by norm_num) (by norm_num),
   claim_c3_snow_mu_flat.2.2.1 70 (by norm_num)⟩

/-- Claim C7: a snow region not in the 8-entry table falls back to region
III's `Sg = 1.5`, the result's notes contain a fallback warning carrying the
unknown region code, and the same fallback (`SNOW_REGIONS_SG.get(region,
1.5)`) is what `src/checks/snow_load.py` performs. -/
theorem claim_c7_unknown_snow_region :
    ∀ p : SnowLoadParams, lookupStr SNOW_REGIONS_SG p.snow_region = none →
      (compute_snow_load p).Sg = 1.5 ∧
      SnowNote.unknownRegion p.snow_region 1.5 ∈ (compute_snow_load p).notes ∧
      snowSgFor p.snow_region = 1.5 := by
  intro p h
  refine ⟨?_, ?_, ?_⟩
  · simp [compute_snow_load, h]
  · simp [compute_snow_load, h]
  · simp [snowSgFor, h]

/-- Witness for C7 at the unknown region "IX". -/
theorem claim_c7_witness :
    (compute_snow_load { snow_region := "IX" }).Sg = 1.5 ∧
    SnowNote.unknownRegion "IX" 1.5 ∈ (compute_snow_load { snow_region := "IX" }).notes ∧
    snowSgFor "IX" = 1.5 :=
  claim_c7_unknown_snow_region { snow_region := "IX" } (by decide)

/-- Unfolding lemma: resolved volume is `length * area` exactly when the
input volume is non-positive and both length and area are positive;
otherwise the input volume is kept (also when it is non-positive). -/
lemma sw_volume_eq (p : SelfWeightParams) :
    (calculate_self_weight p).volume_m3 =
      (if p.volume_m3 ≤ 0 ∧ 0 < p.length_m ∧ 0 < p.cross_section_area_m2
       then p.length_m * p.cross_section_area_m2 else p.volume_m3) := by
  by_cases h : p.volume_m3 ≤ 0 ∧ 0 < p.length_m ∧ 0 < p.cross_section_area_m2
  · simp [calculate_self_weight, h]
  · by_cases h2 : 0 < p.volume_m3 <;> simp [calculate_self_weight, h, h2]

/-- Unfolding lemma: the resolved density is the first component of
`get_material_density`. -/
lemma sw_density_eq (p : SelfWeightParams) :
    (calculate_self_weight p).density_kg_m3 =
      (get_material_density p.material_name p.density_kg_m3).1 := rfl

/-- Unfolding lemma: mass is density times resolved volume. -/
lemma sw_mass_eq (p : SelfWeightParams) :
    (calculate_self_weight p).mass_kg =
      (calculate_self_weight p).density_kg_m3 * (calculate_self_weight p).volume_m3 := rfl

/-- Unfolding lemma: normative weight is mass times `9.81 / 1000`. -/
lemma sw_wnorm_eq (p : SelfWeightParams) :
    (calculate_self_weight p).weight_norm_kN =
      (calculate_self_weight p).mass_kg * (9.81 / 1000) := rfl

/-- Unfolding lemma: factored weight is normative weight times `gamma_f`. -/
lemma sw_wcalc_eq (p : SelfWeightParams) :
    (calculate_self_weight p).weight_calc_kN =
      (calculate_self_weight p).weight_norm_kN * p.gamma_f := rfl

/-- Unfolding lemma: the linear load is present exactly when the length is
positive, and is then the factored weight divided by the length. -/
lemma sw_linear_eq (p : SelfWeightParams) :
    (calculate_self_weight p).linear_load_kN_m =
      (if 0 < p.length_m
       then some ((calculate_self_weight p).weight_calc_kN / p.length_m) else none) := by
  by_cases h : 0 < p.length_m <;> simp [calculate_self_weight, h]

/-- The undefined-volume warning note is emitted whenever neither a positive
volume nor a positive length-area pair is available. -/
lemma sw_undefined_note (p : SelfWeightParams)
    (h1 : ¬ 0 < p.volume_m3)
    (h2 : ¬ (0 < p.length_m ∧ 0 < p.cross_section_area_m2)) :
    SWNote.volumeUndefined ∈ (calculate_self_weight p).notes := by
  have hle : p.volume_m3 ≤ 0 := not_lt.mp h1
  simp [calculate_self_weight, h1, h2, hle]

/-- The self-weight demo input of the spec's §8: spruce density 450 kg/m³
(via the `wood_spruce` table entry), volume 0.054 m³, `gamma_f = 1.1`. -/
def swExample : SelfWeightParams :=
  { volume_m3 := 0.054, material_name := "wood_spruce", gamma_f := 1.1 }

/-- A degenerate self-weight input with a negative volume and no geometry:
the code keeps the negative volume rather than zeroing it. -/
def swNegVolume : SelfWeightParams := { volume_m3 := -2 }

/-- Counterexample to claim C2 as stated: for `volume_m3 = -2` (no length,
no section area) the undefined-volume branch is taken, yet the resolved
volume is -2, not 0 as the claim asserts. -/
theorem claim_c2_counterexample :
    (calculate_self_weight swNegVolume).volume_m3 = -2 ∧
    SWNote.volumeUndefined ∈ (calculate_self_weight swNegVolume).notes ∧
    (-2 : ℚ) ≠ 0 := by
  refine ⟨?_, ?_, by norm_num⟩
  · rw [sw_volume_eq]
    norm_num [swNegVolume]
  · exact sw_undefined_note _ (by norm_num [swNegVolume]) (by norm_num [swNegVolume])

/-- Claim C2 (amended): `calculate_self_weight` resolves the volume to
`volume_m3` when positive, else to `length * area` when both are positive,
else it keeps `volume_m3` (which is then non-positive — the source does not
zero it) together with an undefined-volume note; mass, normative weight,
factored weight and the optional linear load follow the claimed formulas,
and the spruce example yields mass 24.3 kg, normative weight 0.238383 kN
(≈ 0.2384) and factored weight 0.2622213 kN (≈ 0.2623). -/
theorem claim_c2_self_weight_amended :
    (∀ p : SelfWeightParams,
      (calculate_self_weight p).volume_m3 =
        (if p.volume_m3 ≤ 0 ∧ 0 < p.length_m ∧ 0 < p.cross_section_area_m2
         then p.length_m * p.cross_section_area_m2 else p.volume_m3) ∧
      (¬ 0 < p.volume_m3 → ¬ (0 < p.length_m ∧ 0 < p.cross_section_area_m2) →
        SWNote.volumeUndefined ∈ (calculate_self_weight p).notes) ∧
      (calculate_self_weight p).mass_kg =
        (calculate_self_weight p).density_kg_m3 * (calculate_self_weight p).volume_m3 ∧
      (calculate_self_weight p).weight_norm_kN =
        (calculate_self_weight p).mass_kg * (9.81 / 1000) ∧
      (calculate_self_weight p).weight_calc_kN =
        (calculate_self_weight p).weight_norm_kN * p.gamma_f ∧
      (calculate_self_weight p).linear_load_kN_m =
        (if 0 < p.length_m
         then some ((calculate_self_weight p).weight_calc_kN / p.length_m) else none)) ∧
    ((calculate_self_weight swExample).density_kg_m3 = 450 ∧
     (calculate_self_weight swExample).mass_kg = 24.3 ∧
     (calculate_self_weight swExample).weight_norm_kN = 0.238383 ∧
     (calculate_self_weight swExample).weight_calc_kN = 0.2622213 ∧
     |(calculate_self_weight swExample).weight_norm_kN - 0.2384| < 0.0001 ∧
     |(calculate_self_weight swExample).weight_calc_kN - 0.2623| < 0.0001 ∧
     (calculate_self_weight swExample).linear_load_kN_m = none) := by
  constructor
  · intro p
    exact ⟨sw_volume_eq p, sw_undefined_note p, sw_mass_eq p, sw_wnorm_eq p,
      sw_wcalc_eq p, sw_linear_eq p⟩
  · have hDen : (calculate_self_weight swExample).density_kg_m3 = 450 := rfl
    have hVol : (calculate_self_weight swExample).volume_m3 = 0.054 := by
      rw [sw_volume_eq]
      norm_num [swExample]
    have hMass : (calculate_self_weight swExample).mass_kg = 24.3 := by
      rw [sw_mass_eq, hDen, hVol]
      norm_num
    have hWn : (calculate_self_weight swExample).weight_norm_kN = 0.238383 := by
      rw [sw_wnorm_eq, hMass]
      norm_num
    have hWc : (calculate_self_weight swExample).weight_calc_kN = 0.2622213 := by
      rw [sw_wcalc_eq, hWn]
      norm_num [swExample]
    have hLin : (calculate_self_weight swExample).linear_load_kN_m = none := by
      rw [sw_linear_eq]
      norm_num [swExample]
    refine ⟨hDen, hMass, hWn, hWc, ?_, ?_, hLin⟩
    · rw [hWn]; norm_num [abs_lt]
    · rw [hWc]; norm_num [abs_lt]

/-- Witness for the amended C2 at the degenerate input: the undefined-volume
note is emitted when neither volume nor length-area geometry is positive. -/
theorem claim_c2_witness :
    SWNote.volumeUndefined ∈ (calculate_self_weight swNegVolume).notes :=
  (claim_c2_self_weight_amended.1 swNegVolume).2.1
    (by norm_num [swNegVolume]) (by norm_num [swNegVolume])

/-- The name-based density resolution depends on the name only through its
normalization. -/
lemma densityByName_congr (n1 n2 : String)
    (h : normalize_material_name n1 = normalize_material_name n2) :
    densityByName n1 = densityByName n2 := by
  have e1 : lookupStr MATERIAL_DENSITIES "" = none := rfl
  have e2 : kwDensity "" keywords_density = none := rfl
  by_cases h1 : n1 = "" <;> by_cases h2 : n2 = ""
  · rw [h1, h2]
  · have hn2 : normalize_material_name n2 = "" := by rw [← h, h1]; rfl
    simp [densityByName, h1, h2, hn2, e1, e2]
  · have hn1 : normalize_material_name n1 = "" := by rw [h, h2]; rfl
    simp [densityByName, h1, h2, hn1, e1, e2]
  · simp [densityByName, h1, h2, h]

/-- Claim C6: a positive custom override is returned with source "custom";
otherwise resolution depends only on the normalized name (hence is
invariant under whitespace/hyphen/case variation, for the Cyrillic material
names of the source's keyword table as well as for Latin ones); the empty
and the unmatched name resolve to concrete's 2500 with source "default";
exact and keyword lookups return source "lookup", the first matching
keyword group winning (`"steel wood"` resolves to steel's 7850, not wood's
500), and the uppercase Cyrillic `"СТАЛЬ"` resolves to steel's 7850 just
like `"сталь"`. -/
theorem claim_c6_material_density :
    (∀ name : String, ∀ d : ℚ, 0 < d →
      get_material_density name (some d) = (d, "custom")) ∧
    (∀ n1 n2 : String, ∀ c : Option ℚ,
      normalize_material_name n1 = normalize_material_name n2 →
      get_material_density n1 c = get_material_density n2 c) ∧
    get_material_density "" none = (2500, "default") ∧
    (∀ name : String,
      lookupStr MATERIAL_DENSITIES (normalize_material_name name) = none →
      kwDensity (normalize_material_name name) keywords_density = none →
      get_material_density name none = (2500, "default")) ∧
    get_material_density "steel wood" none = (7850, "lookup") ∧
    get_material_density "WOOD-SPRUCE" none = (450, "lookup") ∧
    get_material_density "СТАЛЬ" none = (7850, "lookup") := by
  refine ⟨?_, ?_, rfl, ?_, rfl, rfl, rfl⟩
  · intro name d hd
    simp [get_material_density, hd]
  · intro n1 n2 c h
    cases c with
    | none => simpa [get_material_density] using densityByName_congr n1 n2 h
    | some d =>
      by_cases hd : 0 < d <;>
        simp [get_material_density, hd, densityByName_congr n1 n2 h]
  · intro name e1 e2
    by_cases hn : name = ""
    · simp [get_material_density, densityByName, hn]
    · simp [get_material_density, densityByName, hn, e1, e2]

/-- Witness for C6: a positive override, a Latin hyphen/case variant pair, a
Cyrillic case variant pair, and an unmatched name, at concrete inputs. -/
theorem claim_c6_witness :
    get_material_density "x" (some 3) = (3, "custom") ∧
    get_material_density "Wood-Spruce" none = get_material_density "wood_spruce" none ∧
    get_material_density "СТАЛЬ" none = get_material_density "сталь" none ∧
    get_material_density "unobtainium" none = (2500, "default") :=
  ⟨claim_c6_material_density.1 "x" 3 (by norm_num),
   claim_c6_material_density.2.1 "Wood-Spruce" "wood_spruce" none (by decide),
   claim_c6_material_density.2.1 "СТАЛЬ" "сталь" none (by decide),
   claim_c6_material_density.2.2.2.1 "unobtainium" (by decide) (by decide)⟩

/-- An element whose beam quantity set carries only `Length`. -/
def beamLengthElem (v : ℚ) : ElementRecord :=
  { qto_beam := some { length := some v } }

/-- An element whose column quantity set carries only `Height`. -/
def colHeightElem (v : ℚ) : ElementRecord :=
  { qto_column := some { height := some v } }

/-- An element whose `section_approx` carries only `length`. -/
def secLengthElem (v : ℚ) : ElementRecord :=
  { section_approx := some { length := some v } }

/-- An element whose `section_approx` carries only `b` and `h`. -/
def secBHElem (b h : ℚ) : ElementRecord :=
  { section_approx := some { b := b, h := h } }

/-- An element whose placement carries only the coordinates `[0, 0, z]`. -/
def xyzElem (z : ℚ) : ElementRecord := { xyz := [0, 0, z] }

/-- Counterexample to claim C8 as stated: the `> 100` millimetre heuristic
is not applied uniformly.  For section dimensions `b = h = 50` the code
divides by 1000 (its threshold there is `> 1`), giving an area of 1/400 m²
where the claimed uniform heuristic (50 ≤ 100, so metres) would give
2500 m²; and the wind extraction divides the placement height by 1000
unconditionally, giving 1/20 m for `z = 50` instead of 50 m. -/
theorem claim_c8_counterexample :
    (extract_self_weight_params_from_ifc_element (secBHElem 50 50)).cross_section_area_m2
        = 1 / 400 ∧
    ((1 : ℚ) / 400 ≠ 50 * 50) ∧
    (extract_wind_params_from_ifc_element (xyzElem 50)).element_height_m = 1 / 20 ∧
    ((1 : ℚ) / 20 ≠ 50) := by
  refine ⟨?_, by norm_num, ?_, by norm_num⟩
  · norm_num [extract_self_weight_params_from_ifc_element, secBHElem]
  · norm_num [extract_wind_params_from_ifc_element, xyzElem]

/-- Claim C8 (amended): the `value > 100 → millimetres` heuristic governs
the extracted lengths (beam `Length`, column `Length`/`Height`,
`section_approx` length); the section dimensions `b`/`h` instead use a
`> 1` threshold, and the wind extraction's element height is divided by
1000 unconditionally. -/
theorem claim_c8_unit_heuristic_amended :
    (∀ v : ℚ, (extract_self_weight_params_from_ifc_element (beamLengthElem v)).length_m
        = (if v > 100 then v / 1000 else v)) ∧
    (∀ v : ℚ, (extract_self_weight_params_from_ifc_element (colHeightElem v)).length_m
        = (if v > 100 then v / 1000 else v)) ∧
    (∀ v : ℚ, (extract_self_weight_params_from_ifc_element (secLengthElem v)).length_m
        = (if v > 100 then v / 1000 else v)) ∧
    (∀ b h : ℚ,
      (extract_self_weight_params_from_ifc_element (secBHElem b h)).cross_section_area_m2
        = (if 0 < b ∧ 0 < h
           then (if b > 1 then b / 1000 else b) * (if h > 1 then h / 1000 else h)
           else 0)) ∧
    (∀ z : ℚ, (extract_wind_params_from_ifc_element (xyzElem z)).element_height_m
        = z / 1000) := by
  refine ⟨?_, ?_, ?_, ?_, ?_⟩
  · intro v
    simp [extract_self_weight_params_from_ifc_element, beamLengthElem]
  · intro v
    simp [extract_self_weight_params_from_ifc_element, colHeightElem]
  · intro v
    by_cases h : v > 100 <;>
      simp [extract_self_weight_params_from_ifc_element, secLengthElem, h]
  · intro b h
    by_cases hbh : 0 < b ∧ 0 < h <;>
      simp [extract_self_weight_params_from_ifc_element, secBHElem, hbh]
  · intro z
    simp [extract_wind_params_from_ifc_element, xyzElem]

/-- The terrain-B entry of `TERRAIN_PARAMS`. -/
def terrainB : TerrainEntry :=
  { alpha := 0.20, k10 := 0.65, zeta10 := 1.06, z0 := 10.0 }

/-- The power function `1 ^ y = 1` for every exponent, as Python's float
`**` satisfies; used to instantiate `fpow` in witnesses. -/
def onePow : ℚ → ℚ → ℚ := fun _ _ => 1

/-- Claim C4: `k(ze) = k10 * (max(ze, z0)/10)^(2 alpha)` and
`zeta(ze) = zeta10 * (max(ze, z0)/10)^(-alpha)`, the clamp to `z0` applied
before exponentiation; for terrain B, `ze = 10` gives `k = k10 = 0.65`
exactly (since `1 ** x = 1`), and `ze = 2` (below `z0 = 10`) gives the same
`k` and `zeta` as `ze = 10`. -/
theorem claim_c4_k_ze :
    (∀ (fpow : ℚ → ℚ → ℚ) (ze : ℚ) (t : String) (e : TerrainEntry),
      lookupStr TERRAIN_PARAMS t = some e →
      calculate_k_ze fpow ze t =
        (e.k10 * fpow (max ze e.z0 / 10) (2 * e.alpha),
         e.zeta10 * fpow (max ze e.z0 / 10) (-e.alpha))) ∧
    (∀ fpow : ℚ → ℚ → ℚ, (∀ y : ℚ, fpow 1 y = 1) →
      calculate_k_ze fpow 10 "B" = (0.65, 1.06)) ∧
    (∀ fpow : ℚ → ℚ → ℚ, calculate_k_ze fpow 2 "B" = calculate_k_ze fpow 10 "B") := by
  have hB : lookupStr TERRAIN_PARAMS "B" = some terrainB := rfl
  refine ⟨?_, ?_, ?_⟩
  · intro fpow ze t e he
    simp [calculate_k_ze, he]
  · intro fpow h1
    norm_num [calculate_k_ze, hB, terrainB, max_def, h1]
  · intro fpow
    norm_num [calculate_k_ze, hB, terrainB, max_def]

/-- Witness for C4: the formula at terrain B and `ze = 42`, the boundary
value at `ze = 10`, and the clamp at `ze = 2`, all with the concrete power
function `onePow`. -/
theorem claim_c4_witness :
    calculate_k_ze onePow 42 "B" =
      (terrainB.k10 * onePow (max 42 terrainB.z0 / 10) (2 * terrainB.alpha),
       terrainB.zeta10 * onePow (max 42 terrainB.z0 / 10) (-terrainB.alpha)) ∧
    calculate_k_ze onePow 10 "B" = (0.65, 1.06) ∧
    calculate_k_ze onePow 2 "B" = calculate_k_ze onePow 10 "B" :=
  ⟨claim_c4_k_ze.1 onePow 42 "B" terrainB rfl,
   claim_c4_k_ze.2.1 onePow (fun _ => rfl),
   claim_c4_k_ze.2.2 onePow⟩

/-- Inversion: a successful wind calculation is `windFinish` applied to some
correlation coefficient, with `wp = |wm| * zeta * nu` under pulsation and
`wp = 0` otherwise, and with the corresponding pulsation notes. -/
lemma calculate_wind_load_ok (fpow : ℚ → ℚ → ℚ) (p : WindLoadParams)
    (r : WindLoadResult) (h : calculate_wind_load fpow p = Except.ok r) :
    ∃ nu pn,
      r = windFinish fpow p nu
        (if p.include_pulsation
         then |wind_wm fpow p| * (wind_kzeta fpow p).2 * nu else 0) pn ∧
      (pn = [WindNote.nuNote nu,
             WindNote.wpNote (|wind_wm fpow p|) ((wind_kzeta fpow p).2) nu
               (|wind_wm fpow p| * (wind_kzeta fpow p).2 * nu)] ∨
       pn = [WindNote.noPulsationNote]) := by
  unfold calculate_wind_load at h
  split at h
  case isTrue hp =>
    split at h
    case h_1 => exact absurd h (by simp)
    case h_2 nu hnu =>
      simp only [Except.ok.injEq] at h
      refine ⟨nu, _, ?_, Or.inl rfl⟩
      rw [← h]
      simp [hp]
  case isFalse hp =>
    simp only [Except.ok.injEq] at h
    refine ⟨p.correlation_coef_nu, _, ?_, Or.inr rfl⟩
    rw [← h]
    simp [Bool.of_not_eq_true hp]

/-- Claim C5: in every successful wind calculation, `wp` is
`|wm| * zeta * nu` when pulsation is included and 0 otherwise; the
normative total adds `wp` to `wm` for `wm ≥ 0` and subtracts it otherwise;
`w_calc = w_norm * 1.4`; and `total_load_kN = |w_calc| * area_m2`. -/
theorem claim_c5_wind_combination :
    ∀ (fpow : ℚ → ℚ → ℚ) (p : WindLoadParams) (r : WindLoadResult),
      calculate_wind_load fpow p = Except.ok r →
      (r.wp = if p.include_pulsation then |r.wm| * r.zeta * r.nu else 0) ∧
      r.w_norm = (if 0 ≤ r.wm then r.wm + r.wp else r.wm - r.wp) ∧
      r.w_calc = r.w_norm * 1.4 ∧
      r.total_load_kN = |r.w_calc| * r.area_m2 := by
  intro fpow p r h
  obtain ⟨nu, pn, rfl, -⟩ := calculate_wind_load_ok fpow p r h
  exact ⟨rfl, rfl, rfl, rfl⟩

/-- The all-defaults wind input with pulsation switched off. -/
def windNoPuls : WindLoadParams := { include_pulsation := false }

/-- Witness for C5 at a concrete successful run (defaults, no pulsation). -/
theorem claim_c5_witness :
    calculate_wind_load onePow windNoPuls =
      Except.ok (windFinish onePow windNoPuls 0.8 0 [WindNote.noPulsationNote]) ∧
    (windFinish onePow windNoPuls 0.8 0 [WindNote.noPulsationNote]).w_calc =
      (windFinish onePow windNoPuls 0.8 0 [WindNote.noPulsationNote]).w_norm * 1.4 :=
  ⟨rfl, (claim_c5_wind_combination onePow windNoPuls _ rfl).2.2.1⟩

/-- The fallback-warning notes of the wind calculator are exactly the
unknown-region and unknown-terrain notes (the two `notes.append` sites in
the source whose text warns about an unknown input). -/
def WindNote.isUnknownWarning : WindNote → Bool
  | WindNote.unknownRegion _ _ => true
  | WindNote.unknownTerrain _ => true
  | _ => false

/-- Claim C10: an unknown surface type with no caller override silently
resolves to `c = 0.8` and, for known region and terrain, the result carries
no fallback warning note at all; by contrast an unknown wind region or an
unknown terrain type does put its warning note into the result. -/
theorem claim_c10_unknown_surface :
    (∀ (fpow : ℚ → ℚ → ℚ) (p : WindLoadParams) (r : WindLoadResult),
      calculate_wind_load fpow p = Except.ok r →
      lookupStr AERO_COEFFICIENTS p.surface_type = none →
      p.custom_aero_coef = none →
      r.c = 0.8 ∧
      ((lookupStr WIND_REGIONS_W0 p.wind_region).isSome = true →
       (lookupStr TERRAIN_PARAMS p.terrain_type).isSome = true →
       r.notes.filter WindNote.isUnknownWarning = [])) ∧
    (∀ (fpow : ℚ → ℚ → ℚ) (p : WindLoadParams) (r : WindLoadResult),
      calculate_wind_load fpow p = Except.ok r →
      lookupStr WIND_REGIONS_W0 p.wind_region = none →
      WindNote.unknownRegion p.wind_region 0.38 ∈ r.notes) ∧
    (∀ (fpow : ℚ → ℚ → ℚ) (p : WindLoadParams) (r : WindLoadResult),
      calculate_wind_load fpow p = Except.ok r →
      lookupStr TERRAIN_PARAMS p.terrain_type = none →
      WindNote.unknownTerrain p.terrain_type ∈ r.notes) := by
  refine ⟨?_, ?_, ?_⟩
  · intro fpow p r h hsurf hcust
    obtain ⟨nu, pn, rfl, hpn⟩ := calculate_wind_load_ok fpow p r h
    constructor
    · simp [windFinish, wind_c, get_aero_coefficient, hsurf, hcust]
    · intro hreg hter
      by_cases hA : 0 < p.element_area_m2 <;>
        rcases hpn with rfl | rfl <;>
          simp [windFinish, wind_regionNote, wind_terrainNote, hreg, hter, hA,
            WindNote.isUnknownWarning]
  · intro fpow p r h hreg
    obtain ⟨nu, pn, rfl, -⟩ := calculate_wind_load_ok fpow p r h
    simp [windFinish, wind_regionNote, wind_w0, hreg]
  · intro fpow p r h hter
    obtain ⟨nu, pn, rfl, -⟩ := calculate_wind_load_ok fpow p r h
    simp [windFinish, wind_terrainNote, hter]

/-- An unknown-surface wind input (pulsation off, everything else default). -/
def windOddSurface : WindLoadParams :=
  { surface_type := "frobnicate", include_pulsation := false }

/-- An unknown-region wind input (pulsation off). -/
def windOddRegion : WindLoadParams :=
  { wind_region := "Z9", include_pulsation := false }

/-- An unknown-terrain wind input (pulsation off). -/
def windOddTerrain : WindLoadParams :=
  { terrain_type := "Q", include_pulsation := false }

/-- Witness for C10 at concrete unknown-surface, unknown-region and
unknown-terrain inputs. -/
theorem claim_c10_witness :
    ((windFinish onePow windOddSurface 0.8 0 [WindNote.noPulsationNote]).c = 0.8 ∧
     ((lookupStr WIND_REGIONS_W0 windOddSurface.wind_region).isSome = true →
      (lookupStr TERRAIN_PARAMS windOddSurface.terrain_type).isSome = true →
      (windFinish onePow windOddSurface 0.8 0
        [WindNote.noPulsationNote]).notes.filter WindNote.isUnknownWarning = [])) ∧
    WindNote.unknownRegion "Z9" 0.38 ∈
      (windFinish onePow windOddRegion 0.8 0 [WindNote.noPulsationNote]).notes ∧
    WindNote.unknownTerrain "Q" ∈
      (windFinish onePow windOddTerrain 0.8 0 [WindNote.noPulsationNote]).notes :=
  ⟨claim_c10_unknown_surface.1 onePow windOddSurface _ rfl (by decide) rfl,
   claim_c10_unknown_surface.2.1 onePow windOddRegion _ rfl (by decide),
   claim_c10_unknown_surface.2.2 onePow windOddTerrain _ rfl (by decide)⟩

/-- A wind input whose negative building length makes the correlation
denominator `1 + 0.8 * (rho + chi)` exactly zero. -/
def windBadLength : WindLoadParams :=
  { building_width_m := 2.5, building_length_m := -15, building_height_m := 1 }

/-- Counterexample to claim C9 as stated: the wind calculator is not total.
With pulsation included, building width 2.5 m, height 1 m and the
out-of-range negative length -15 m, the correlation denominator
`1 + 0.8 * (2.5/10 + (-15)/10)` is exactly zero and the source raises
`ZeroDivisionError` instead of degrading to a default with a note. -/
theorem claim_c9_counterexample :
    calculate_wind_load onePow windBadLength = Except.error "ZeroDivisionError" := by
  have hcond : 0 < windBadLength.building_width_m ∧
      0 < windBadLength.building_height_m := by
    norm_num [windBadLength]
  have hz : (1 : ℚ) + 0.8 *
      (windBadLength.building_width_m / (10 * windBadLength.building_height_m) +
       windBadLength.building_length_m / (10 * windBadLength.building_height_m)) = 0 := by
    norm_num [windBadLength]
  have hc : calculate_correlation_coefficient
      (windBadLength.building_width_m / (10 * windBadLength.building_height_m))
      (windBadLength.building_length_m / (10 * windBadLength.building_height_m)) =
      Except.error "ZeroDivisionError" := by
    simp only [calculate_correlation_coefficient, pyDiv, if_pos hz]
  rw [calculate_wind_load,
    if_pos (show windBadLength.include_pulsation = true from rfl), if_pos hcond, hc]

/-- Claim C9 (amended): the self-weight and snow calculators are total and
always return a non-empty note list; the wind calculator can hit an
unguarded division (see the counterexample) but succeeds — again with
non-empty notes — whenever the building length is non-negative. -/
theorem claim_c9_totality_amended :
    (∀ p : SelfWeightParams, (calculate_self_weight p).notes ≠ []) ∧
    (∀ p : SnowLoadParams, (compute_snow_load p).notes ≠ []) ∧
    (∀ (fpow : ℚ → ℚ → ℚ) (p : WindLoadParams), 0 ≤ p.building_length_m →
      ∃ r, calculate_wind_load fpow p = Except.ok r ∧ r.notes ≠ []) := by
  refine ⟨?_, ?_, ?_⟩
  · intro p
    simp [calculate_self_weight]
  · intro p
    simp [compute_snow_load]
  · intro fpow p hlen
    cases hres : calculate_wind_load fpow p with
    | ok r =>
      obtain ⟨nu, pn, hr, -⟩ := calculate_wind_load_ok fpow p r hres
      refine ⟨r, rfl, ?_⟩
      rw [hr]
      simp [windFinish]
    | error e =>
      exfalso
      cases hp : p.include_pulsation with
      | false => simp [calculate_wind_load, hp] at hres
      | true =>
        by_cases hwh : 0 < p.building_width_m ∧ 0 < p.building_height_m
        · have h10 : (0 : ℚ) < 10 * p.building_height_m := by linarith [hwh.2]
          have hrho : 0 < p.building_width_m / (10 * p.building_height_m) :=
            div_pos hwh.1 h10
          have hchi : 0 ≤ p.building_length_m / (10 * p.building_height_m) :=
            div_nonneg hlen h10.le
          have hpos : (0 : ℚ) < 1 + 0.8 *
              (p.building_width_m / (10 * p.building_height_m) +
               p.building_length_m / (10 * p.building_height_m)) := by
            linarith
          simp [calculate_wind_load, hp, hwh, calculate_correlation_coefficient,
            pyDiv, hpos.ne'] at hres
        · simp [calculate_wind_load, hp, hwh] at hres

/-- Witness for the amended C9 at the all-defaults wind input. -/
theorem claim_c9_witness :
    ∃ r, calculate_wind_load onePow ({} : WindLoadParams) = Except.ok r ∧
      r.notes ≠ [] :=
  claim_c9_totality_amended.2.2 onePow {} (by norm_num)
